import Mathlib

/-!
Verification of the hosting supervisor / traffic router of `src/index.py`
(class `BotRegistry` and the aiohttp webhook/proxy handlers).

The Python code is shallowly embedded:

* A Python dict is an insertion-ordered association list
  (`List (String × α)`); `dinsert` mirrors `d[k] = v` (replace in place,
  append when absent), `ddelete` mirrors `del d[k]`, `dget` mirrors
  `d.get(k)`.
* A registry record (`self._bots[token] = {...}`, index.py:722-726) is the
  dict that line literally builds: keys `token, name, username, process,
  port, type` and nothing else.
* External effects are oracles passed as arguments: `getMe` is the outcome
  of `bot.get_me()` (some username, or none for the `except` branch that
  returns "Invalid Token"), `listing` is `os.listdir(target_dir)` after
  zip extraction, `fileContent` is the content of the file at `code_path`
  that `shutil.copy` duplicates, `spawnOk` tells whether
  `asyncio.create_subprocess_exec` raises, `md5hex` is
  `hashlib.md5(·).hexdigest()`.
* Child processes are tracked in a table `procs : List (Nat × Bool)`
  (pid ↦ still-running); spawning appends a fresh pid, termination by
  `unregister` sets the flag to false.  `ProcessLookupError` on an
  already-exited child is swallowed in the source (index.py:747-748), so
  termination in the model is total.
-/

/-- A Python value as stored in a registry record:
`'token'/'name'/'username'/'type'` hold strings, `'process'` holds the
subprocess handle (identified by its pid), `'port'` holds an int or `None`. -/
inductive PyVal where
  | vStr (s : String)
  | vNat (n : Nat)
  | vNone
  | vProc (pid : Nat)
  deriving DecidableEq, Repr

/-- Lookup `d.get(k)` on an insertion-ordered dict. -/
def dget {α : Type} (d : List (String × α)) (k : String) : Option α :=
  match d with
  | [] => none
  | (k', v) :: rest => if k' = k then some v else dget rest k

/-- Assignment `d[k] = v`: replace in place when the key exists, append otherwise
(CPython dict semantics). -/
def dinsert {α : Type} (k : String) (v : α) : List (String × α) → List (String × α)
  | [] => [(k, v)]
  | (k', v') :: rest => if k' = k then (k, v) :: rest else (k', v') :: dinsert k v rest

/-- Deletion `del d[k]`.  A Python dict never holds two bindings for one key, so
deletion removes every binding with the key (identical to removing the
first in every state the program builds). -/
def ddelete {α : Type} (k : String) : List (String × α) → List (String × α)
  | [] => []
  | (k', v') :: rest => if k' = k then ddelete k rest else (k', v') :: ddelete k rest

/-- One registry record: the dict literal of index.py:722-726. -/
abbrev BotInfo := List (String × PyVal)

/-- State of the supervisor: `BotRegistry._bots` plus the table of child
processes it has spawned (pid ↦ still running). `nextPid` supplies fresh
pids for `asyncio.create_subprocess_exec`. -/
structure SupState where
  bots : List (String × BotInfo)
  procs : List (Nat × Bool)
  nextPid : Nat
  deriving DecidableEq, Repr

/-- The empty registry: `BotRegistry.__init__` (index.py:621-624). -/
def initState : SupState := ⟨[], [], 0⟩

/-- Python truthiness of an optional string argument (`if not code_content`):
`None` and `""` are falsy. -/
def pyTruthyStr (o : Option String) : Bool :=
  match o with
  | some s => !(s == "")
  | none => false

/-- Python `str.endswith(suffix)`, computed over the character sequence. -/
def pyEndsWith (s suffix : String) : Bool :=
  s.data.drop (s.data.length - suffix.data.length) == suffix.data

/-- Python `c in s` for a single character `c` (Python substring test,
specialized to the one-character needles the source uses). -/
def pyContainsChar (s : String) (c : Char) : Bool := s.data.contains c

/-- The interpreter path `sys.executable` (index.py:653); its exact value is irrelevant, only
that it differs from `"node"` and `"npm"`. -/
def SYS_EXECUTABLE : String := "python3"

/-- The built-in fallback workload (index.py:521-616).  Only its identity
matters to the claims; the constant below keeps the recognizable opening
lines of the Python source string (content abbreviated). -/
def DEFAULT_SERVICE_CODE : String :=
  "\nimport os\nimport asyncio\nimport logging\nfrom aiogram import Bot, Dispatcher, F\n"

/-- Entry-point scan over the zip listing (index.py:668-671): a single
`for f in os.listdir(target_dir)` that breaks at the first file equal to
any of the three recognized names.  Returns `(runtime, entry_point)`. -/
def findEntryZip (target_dir : String) : List String → Option (String × String)
  | [] => none
  | f :: rest =>
    if f = "main.py" then some (SYS_EXECUTABLE, target_dir ++ "/" ++ f)
    else if f = "index.js" then some ("node", target_dir ++ "/" ++ f)
    else if f = "package.json" then some ("npm", target_dir)
    else findEntryZip target_dir rest

/-- Result of the staging block of `register` (index.py:646-679):
the working directory, the resolved runtime and entry point, and — where
the stager itself determines it — the content of the entry file
(`entryContent = some c` when `c` was written inline, `some fileContent`
when a single file was copied, `none` when a zip was expanded). -/
structure StageOut where
  dir : String
  runtime : String
  entry : Option String
  entryContent : Option String
  deriving DecidableEq, Repr

/-- Staging (index.py:646-679): working directory from the md5 of the
token, defaulting of an absent payload to `DEFAULT_SERVICE_CODE`, inline
text written to `main.py`, single files copied under a runtime-selecting
name, zips expanded and scanned by `findEntryZip`. -/
def stageStep (md5hex : String → String) (token : String)
    (code_content code_path : Option String) (listing : List String)
    (fileContent : String) : StageOut :=
  let dir := "hosted_apps/app_" ++ md5hex token
  let cc := if !pyTruthyStr code_content && !pyTruthyStr code_path
            then some DEFAULT_SERVICE_CODE else code_content
  if pyTruthyStr cc then
    { dir := dir, runtime := SYS_EXECUTABLE,
      entry := some (dir ++ "/main.py"), entryContent := cc }
  else if pyTruthyStr code_path then
    let p := code_path.getD ""
    if pyEndsWith p ".zip" then
      match findEntryZip dir listing with
      | some (rt, e) =>
        { dir := dir, runtime := rt, entry := some e, entryContent := none }
      | none =>
        { dir := dir, runtime := SYS_EXECUTABLE, entry := none, entryContent := none }
    else
      let filename := if pyEndsWith p ".py" then "main.py" else "index.js"
      let rt := if pyEndsWith p ".js" then "node" else SYS_EXECUTABLE
      { dir := dir, runtime := rt,
        entry := some (dir ++ "/" ++ filename), entryContent := some fileContent }
  else
    { dir := dir, runtime := SYS_EXECUTABLE, entry := none, entryContent := none }

/-- The dict literal inserted into `self._bots` (index.py:722-726): note
there is no `total_updates`, `bot` or `dp` key. -/
def regRecord (token name me_username : String) (pid : Nat) (port : Option Nat)
    (is_site : Bool) : BotInfo :=
  [("token", .vStr token), ("name", .vStr name),
   ("username", .vStr me_username), ("process", .vProc pid),
   ("port", match port with | some p => .vNat p | none => .vNone),
   ("type", .vStr (if is_site then "site" else "bot"))]

/-- The method `BotRegistry.register` (index.py:632-731).  Returns the new state and
the `(success, message)` pair.  Mirrors the source order: token validation
via `get_me` (skipped for sites, username defaults to `"website"`), the
staging block, the `entry_point` check, site port allocation
`10000 + len(self._bots) + 1`, process spawn, record insertion.  A raised
spawn error lands in the `except` of line 729 and yields `(False, str(e))`
with no record inserted. -/
def register (md5hex : String → String) (getMe : Option String)
    (listing : List String) (fileContent : String)
    (spawnOk : Bool) (spawnErrMsg : String) (st : SupState)
    (token name : String) (code_content code_path : Option String)
    (is_site : Bool) : SupState × Bool × String :=
  match (if is_site then some "website" else getMe) with
  | none => (st, false, "Invalid Token")
  | some me_username =>
    match (stageStep md5hex token code_content code_path listing fileContent).entry with
    | none => (st, false, "Could not find entry point")
    | some _ =>
      if spawnOk then
        ({ bots := dinsert token
             (regRecord token name me_username st.nextPid
               (if is_site then some (10000 + st.bots.length + 1) else none)
               is_site) st.bots,
           procs := st.procs ++ [(st.nextPid, true)],
           nextPid := st.nextPid + 1 }, true, me_username)
      else (st, false, spawnErrMsg)

/-- Termination `process.terminate()` / `.kill()` on the child with this pid: mark it
no longer running (already-exited children raise `ProcessLookupError`,
swallowed at index.py:747-748, so this is total). -/
def stopProc (pid : Nat) (procs : List (Nat × Bool)) : List (Nat × Bool) :=
  procs.map (fun pr => if pr.1 = pid then (pr.1, false) else pr)

/-- The method `BotRegistry.unregister` (index.py:733-759): unknown token returns
`False` untouched; otherwise terminate the record's process, delete the
entry, return `True`. -/
def unregister (st : SupState) (token : String) : SupState × Bool :=
  match dget st.bots token with
  | some info =>
    let procs' := match dget info "process" with
      | some (.vProc pid) => stopProc pid st.procs
      | _ => st.procs
    ({ st with bots := ddelete token st.bots, procs := procs' }, true)
  | none => (st, false)

/-- Observable interactions `process_update` performs on behalf of a
hosted workload: the database counter bump (`self._db.increment_stats`,
index.py:776-778) and the dispatch of the update into the workload's
dispatcher (`dp.feed_update`, index.py:780-785). -/
inductive Effect where
  | dbIncrement (token : String) (isMessage : Bool)
  | feedUpdate (token : String)
  deriving DecidableEq, Repr

/-- The dict `process_update` returns: `{"ok": True}` or
`{"ok": False, "error": str(e)}`. -/
structure PUResult where
  ok : Bool
  error : Option String
  deriving DecidableEq, Repr

/-- The method `BotRegistry.process_update` (index.py:766-791).  Unknown token:
`None`.  Otherwise the `try` block runs `bot_info['total_updates'] += 1`
first — a `KeyError` when the record has no such key — then the db
increment, then `bot_info['bot']` / `bot_info['dp']` and `feed_update`.
Any exception is caught and converted to `{"ok": False, "error": str(e)}`.
Returns the updated `_bots`, the performed effects, and the result. -/
def process_update (st : SupState) (token : String) (hasMessageKey : Bool) :
    List (String × BotInfo) × List Effect × Option PUResult :=
  match dget st.bots token with
  | none => (st.bots, [], none)
  | some info =>
    match dget info "total_updates" with
    | none => (st.bots, [], some ⟨false, some "'total_updates'"⟩)
    | some (.vNat n) =>
      let info' := dinsert "total_updates" (.vNat (n + 1)) info
      let bots' := dinsert token info' st.bots
      match dget info' "bot", dget info' "dp" with
      | some _, some _ =>
        (bots', [.dbIncrement token hasMessageKey, .feedUpdate token], some ⟨true, none⟩)
      | _, _ =>
        (bots', [.dbIncrement token hasMessageKey], some ⟨false, some "'bot'"⟩)
    | some _ => (st.bots, [], some ⟨false, some "unsupported operand"⟩)

/-- An HTTP response as the router builds it (status and body; headers
are relayed alongside the body and are not modelled separately). -/
structure HttpResp where
  status : Nat
  body : String
  deriving DecidableEq, Repr

/-- The `web.json_response(result)` body for a `process_update` result. -/
def jsonOfPU (r : PUResult) : String :=
  match r.error with
  | none => "\x7b\"ok\": true\x7d"
  | some e => "\x7b\"ok\": false, \"error\": \"" ++ e ++ "\"\x7d"

/-- Handler `hosted_webhook` (index.py:1452-1468), the `POST /webhook/{token}`
handler: feed the body to `process_update`; a truthy (non-`None`) result
is served as 200 JSON, `None` becomes 404. -/
def hosted_webhook (st : SupState) (token : String) (hasMessageKey : Bool) :
    SupState × List Effect × HttpResp :=
  let (bots', effs, res) := process_update st token hasMessageKey
  match res with
  | some r => ({ st with bots := bots' }, effs, ⟨200, jsonOfPU r⟩)
  | none => (st, effs, ⟨404, ""⟩)

/-- Python `str(x)` for the `str(b.get('username'))` comparisons of
`site_proxy`; `str(None) = "None"`. -/
def pyStrOf (o : Option PyVal) : String :=
  match o with
  | some (.vStr s) => s
  | some (.vNat n) => toString n
  | some .vNone => "None"
  | some (.vProc p) => "Process " ++ toString p
  | none => "None"

/-- Python truthiness of `target_bot.get('port')`: `None`, a missing key
and `0` are falsy. -/
def pyTruthyVal (o : Option PyVal) : Bool :=
  match o with
  | some (.vNat n) => !(n == 0)
  | some (.vStr s) => !(s == "")
  | some .vNone => false
  | some (.vProc _) => true
  | none => false

/-- The linear scan of `site_proxy` (index.py:1607-1610): first record in
`registry._bots.values()` whose `username` or `token` matches the path
segment. -/
def findTarget (bots : List (String × BotInfo)) (token_id : String) : Option BotInfo :=
  match bots with
  | [] => none
  | (_, b) :: rest =>
    if pyStrOf (dget b "username") = token_id || pyStrOf (dget b "token") = token_id
    then some b
    else findTarget rest token_id

/-- The URL `site_proxy` builds (index.py:1616-1618). -/
def proxyUrl (port : Nat) (path qs : String) : String :=
  "http://localhost:" ++ toString port ++ "/" ++ path ++
    (if qs ≠ "" then "?" ++ qs else "")

/-- Handler `site_proxy` (index.py:1604-1627), the `* /site/{token}/{path}`
handler.  `downstream port url` is the outcome of the forwarded
`session.request`: `some resp` for a completed round trip — relayed back
verbatim (index.py:1625) — and `none` for a transport exception, which
the `except` turns into a 502. -/
def site_proxy (st : SupState) (token_id path qs : String)
    (downstream : Nat → String → Option HttpResp) : HttpResp :=
  match findTarget st.bots token_id with
  | none => ⟨404, "Site Not Found"⟩
  | some b =>
    if !pyTruthyVal (dget b "port") then ⟨404, "Site Not Found"⟩
    else
      let port := match dget b "port" with | some (.vNat p) => p | _ => 0
      match downstream port (proxyUrl port path qs) with
      | some resp => resp
      | none => ⟨502, "Proxy Error"⟩

/-- Classification `is_site = ":" not in token` (index.py:1210): the code-upload flow
classifies an identity without a colon as a site. -/
def computed_is_site (token : String) : Bool := !(pyContainsChar token ':')

/-- Handler `process_bot_code` (index.py:1201-1235) reduced to its registry
interaction: classify the identity and call
`registry.register(token, "UserApp", ..., is_site=is_site)`. -/
def process_bot_code (md5hex : String → String) (getMe : Option String)
    (listing : List String) (fileContent : String)
    (spawnOk : Bool) (spawnErrMsg : String) (st : SupState)
    (token : String) (code_content code_path : Option String) :
    SupState × Bool × String :=
  register md5hex getMe listing fileContent spawnOk spawnErrMsg st
    token "UserApp" code_content code_path (computed_is_site token)

/-- One externally triggered operation on the supervisor: a registration
(with its oracle outcomes) or an unregistration. -/
inductive Op where
  | reg (getMe : Option String) (listing : List String) (fileContent : String)
      (spawnOk : Bool) (spawnErrMsg : String) (token name : String)
      (code_content code_path : Option String) (is_site : Bool)
  | unreg (token : String)
  deriving Repr

/-- The state transition of one operation. -/
def stepOp (md5hex : String → String) (st : SupState) : Op → SupState
  | .reg g l fc s m t n cc cp site => (register md5hex g l fc s m st t n cc cp site).1
  | .unreg t => (unregister st t).1

/-- Run a sequence of operations from a state. -/
def runOps (md5hex : String → String) (st : SupState) (ops : List Op) : SupState :=
  ops.foldl (stepOp md5hex) st

/-- pids the supervisor believes are still running. -/
def runningPids (procs : List (Nat × Bool)) : List Nat :=
  procs.filterMap (fun pr => if pr.2 then some pr.1 else none)

/-- The consistency invariant between the registry and the process table:
every record's process handle denotes a launched, not-yet-terminated
child, every not-yet-terminated child is some record's process, all pids
are below the pid counter, distinct records never share a process, and
registry keys are unique. -/
def supInv (st : SupState) : Prop :=
  (∀ kb ∈ st.bots, ∃ pid, dget kb.2 "process" = some (.vProc pid) ∧ (pid, true) ∈ st.procs)
  ∧ (∀ pr ∈ st.procs, pr.2 = true → ∃ kb ∈ st.bots, dget kb.2 "process" = some (.vProc pr.1))
  ∧ (∀ pr ∈ st.procs, pr.1 < st.nextPid)
  ∧ (∀ kb ∈ st.bots, ∀ kb' ∈ st.bots, ∀ pid,
      dget kb.2 "process" = some (.vProc pid) →
      dget kb'.2 "process" = some (.vProc pid) → kb.1 = kb'.1)
  ∧ (st.bots.map Prod.fst).Nodup

/-- An operation sequence in which `register` is only ever invoked for an
identity that has no live record at that moment (the usage discipline the
spec demands for identities). -/
def freshOps (md5hex : String → String) : SupState → List Op → Bool
  | _, [] => true
  | st, (Op.reg g l fc s m t n cc cp site) :: rest =>
    (dget st.bots t).isNone &&
      freshOps md5hex (stepOp md5hex st (Op.reg g l fc s m t n cc cp site)) rest
  | st, (Op.unreg t) :: rest => freshOps md5hex (stepOp md5hex st (Op.unreg t)) rest

/-- A successful site registration as triggered through the code-upload
flow, with inline payload `"code"`: oracle inputs for the traces below. -/
def siteRegOp (t : String) : Op := .reg none [] "" true "" t "n" (some "code") none true

/-- The port-collision trace: two sites, unregister the first, register a
third. -/
def c1Trace : List Op := [siteRegOp "a", siteRegOp "b", .unreg "a", siteRegOp "c"]

def c1Final : SupState := runOps (fun s => s) initState c1Trace

/-- The registry after a messaging bot `"123:abc"` is successfully
registered (its `get_me` resolved to username `"mybot"`). -/
def c2State : SupState :=
  (register (fun s => s) (some "mybot") [] "" true "" initState
    "123:abc" "UserApp" (some "print(1)") none false).1

/-- A registry holding one live site `"site1"`. -/
def c3State : SupState :=
  (register (fun s => s) none [] "" true "" initState
    "site1" "n" (some "x") none true).1

/-- A registry holding one live messaging bot `"tok"`. -/
def c4State : SupState :=
  (register (fun s => s) (some "u") [] "" true "" initState
    "tok" "n" (some "x") none false).1

/-- State `c4State` after its only child exited on its own (pid 0 no longer
running, record still present): the already-exited-termination scenario. -/
def c4DeadState : SupState := { c4State with procs := stopProc 0 c4State.procs }

/-- The double-deployment trace: `register` twice for the same identity
with no unregister in between. -/
def c6Trace : List Op := [siteRegOp "a", siteRegOp "a"]

def c6Final : SupState := runOps (fun s => s) initState c6Trace

/-- Modelled from the spec's words (for the refinement comparison):
entry-point resolution that honours the fixed priority
`main.py` over `index.js` over `package.json` regardless of the
enumeration order of the expanded tree. -/
def findEntryPrioritySpec (target_dir : String) (listing : List String) :
    Option (String × String) :=
  if listing.contains "main.py" then some (SYS_EXECUTABLE, target_dir ++ "/main.py")
  else if listing.contains "index.js" then some ("node", target_dir ++ "/index.js")
  else if listing.contains "package.json" then some ("npm", target_dir)
  else none

/-- The three file names the zip scan recognizes. -/
def recognizedEntry (f : String) : Bool :=
  f == "main.py" || f == "index.js" || f == "package.json"

/-- Runtime and entry point selected for one recognized file name. -/
def entryForFile (target_dir f : String) : String × String :=
  if f = "main.py" then (SYS_EXECUTABLE, target_dir ++ "/" ++ f)
  else if f = "index.js" then ("node", target_dir ++ "/" ++ f)
  else ("npm", target_dir)

/-! ### Dictionary and process-table lemmas -/

theorem dget_dinsert_self {α : Type} (k : String) (v : α) (d : List (String × α)) :
    dget (dinsert k v d) k = some v := by
  induction d with
  | nil => simp [dinsert, dget]
  | cons kv rest ih =>
    obtain ⟨k', v'⟩ := kv
    by_cases h : k' = k
    · simp [dinsert, dget, h]
    · simp [dinsert, dget, h, ih]

theorem dget_none_iff {α : Type} (d : List (String × α)) (k : String) :
    dget d k = none ↔ k ∉ d.map Prod.fst := by
  induction d with
  | nil => simp [dget]
  | cons kv rest ih =>
    obtain ⟨k', v'⟩ := kv
    by_cases h : k' = k
    · subst h; simp [dget]
    · simp only [dget, if_neg h, ih, List.map_cons, List.mem_cons]
      constructor
      · intro hnot hor
        rcases hor with hor | hor
        · exact h hor.symm
        · exact hnot hor
      · intro hnot hmem
        exact hnot (Or.inr hmem)

theorem dinsert_of_fresh {α : Type} (k : String) (v : α) (d : List (String × α))
    (h : dget d k = none) : dinsert k v d = d ++ [(k, v)] := by
  induction d with
  | nil => simp [dinsert]
  | cons kv rest ih =>
    obtain ⟨k', v'⟩ := kv
    simp only [dget] at h
    by_cases hk : k' = k
    · rw [if_pos hk] at h; cases h
    · rw [if_neg hk] at h
      simp [dinsert, hk, ih h]

theorem dget_mem {α : Type} {d : List (String × α)} {k : String} {v : α}
    (h : dget d k = some v) : (k, v) ∈ d := by
  induction d with
  | nil => simp [dget] at h
  | cons kv rest ih =>
    obtain ⟨k', v'⟩ := kv
    simp only [dget] at h
    by_cases hk : k' = k
    · rw [if_pos hk] at h
      cases h; subst hk; exact List.mem_cons_self _ _
    · rw [if_neg hk] at h
      exact List.mem_cons_of_mem _ (ih h)

theorem dget_ddelete_self {α : Type} (k : String) (d : List (String × α)) :
    dget (ddelete k d) k = none := by
  induction d with
  | nil => rfl
  | cons kv rest ih =>
    obtain ⟨k', v'⟩ := kv
    by_cases hk : k' = k
    · simp [ddelete, hk, ih]
    · simp [ddelete, dget, hk, ih]

theorem mem_ddelete {α : Type} {kv : String × α} {k : String} {d : List (String × α)} :
    kv ∈ ddelete k d ↔ kv ∈ d ∧ kv.1 ≠ k := by
  induction d with
  | nil => simp [ddelete]
  | cons kv' rest ih =>
    obtain ⟨k', v'⟩ := kv'
    by_cases hk : k' = k
    · subst hk
      rw [ddelete, if_pos rfl, ih]
      constructor
      · rintro ⟨h1, h2⟩; exact ⟨List.mem_cons_of_mem _ h1, h2⟩
      · rintro ⟨h1, h2⟩
        rcases List.mem_cons.mp h1 with h | h
        · exact absurd (by rw [h]) h2
        · exact ⟨h, h2⟩
    · rw [ddelete, if_neg hk]
      constructor
      · intro h
        rcases List.mem_cons.mp h with h | h
        · exact ⟨by rw [h]; exact List.mem_cons_self _ _, by rw [h]; exact hk⟩
        · exact ⟨List.mem_cons_of_mem _ (ih.mp h).1, (ih.mp h).2⟩
      · rintro ⟨h1, h2⟩
        rcases List.mem_cons.mp h1 with h | h
        · rw [h]; exact List.mem_cons_self _ _
        · exact List.mem_cons_of_mem _ (ih.mpr ⟨h, h2⟩)

theorem ddelete_map_fst_sublist {α : Type} (k : String) (d : List (String × α)) :
    ((ddelete k d).map Prod.fst).Sublist (d.map Prod.fst) := by
  induction d with
  | nil => simp [ddelete]
  | cons kv rest ih =>
    obtain ⟨k', v'⟩ := kv
    by_cases hk : k' = k
    · rw [ddelete, if_pos hk]
      exact ih.trans (List.sublist_cons_self _ _)
    · rw [ddelete, if_neg hk]
      simpa using ih.cons₂ k'

theorem dget_of_mem_nodup {α : Type} {d : List (String × α)} {k : String} {v : α}
    (hnd : (d.map Prod.fst).Nodup) (h : (k, v) ∈ d) : dget d k = some v := by
  induction d with
  | nil => cases h
  | cons kv rest ih =>
    obtain ⟨k', v'⟩ := kv
    simp only [List.map_cons, List.nodup_cons] at hnd
    rcases List.mem_cons.mp h with h | h
    · cases h; simp [dget]
    · have hk : k' ≠ k := by
        rintro rfl
        exact hnd.1 (List.mem_map.mpr ⟨(k', v), h, rfl⟩)
      simp [dget, hk, ih hnd.2 h]

theorem mem_stopProc_of_ne {q p : Nat} {b : Bool} {procs : List (Nat × Bool)}
    (h : (q, b) ∈ procs) (hq : q ≠ p) : (q, b) ∈ stopProc p procs := by
  unfold stopProc
  refine List.mem_map.mpr ⟨(q, b), h, ?_⟩
  simp [hq]

theorem stopProc_mem_fst {pr : Nat × Bool} {p : Nat} {procs : List (Nat × Bool)}
    (h : pr ∈ stopProc p procs) : ∃ pr0 ∈ procs, pr.1 = pr0.1 := by
  unfold stopProc at h
  rcases List.mem_map.mp h with ⟨pr0, hmem, heq⟩
  by_cases hp : pr0.1 = p
  · rw [if_pos hp] at heq; exact ⟨pr0, hmem, by rw [← heq]⟩
  · rw [if_neg hp] at heq; exact ⟨pr0, hmem, by rw [← heq]⟩

theorem stopProc_true_mem {q p : Nat} {procs : List (Nat × Bool)}
    (h : (q, true) ∈ stopProc p procs) : q ≠ p ∧ (q, true) ∈ procs := by
  unfold stopProc at h
  rcases List.mem_map.mp h with ⟨pr0, hmem, heq⟩
  by_cases hp : pr0.1 = p
  · rw [if_pos hp] at heq; cases heq
  · rw [if_neg hp] at heq
    rw [heq] at hp hmem
    exact ⟨hp, hmem⟩

/-! ### Structural lemmas about `register` and `stageStep` -/

theorem register_cases (md5hex : String → String) (getMe : Option String)
    (listing : List String) (fileContent : String) (spawnOk : Bool)
    (spawnErrMsg : String) (st : SupState) (token name : String)
    (code_content code_path : Option String) (is_site : Bool) :
    (spawnOk = true ∧
     (is_site = true ∨ getMe.isSome = true) ∧
     (stageStep md5hex token code_content code_path listing fileContent).entry.isSome = true ∧
     register md5hex getMe listing fileContent spawnOk spawnErrMsg st token name
        code_content code_path is_site =
      ({ bots := dinsert token
            (regRecord token name (if is_site then "website" else getMe.getD "")
              st.nextPid
              (if is_site then some (10000 + st.bots.length + 1) else none)
              is_site) st.bots,
         procs := st.procs ++ [(st.nextPid, true)],
         nextPid := st.nextPid + 1 }, true,
       (if is_site then "website" else getMe.getD ""))) ∨
    ((register md5hex getMe listing fileContent spawnOk spawnErrMsg st token name
        code_content code_path is_site).1 = st ∧
     (register md5hex getMe listing fileContent spawnOk spawnErrMsg st token name
        code_content code_path is_site).2.1 = false) := by
  cases is_site with
  | true =>
    cases he : (stageStep md5hex token code_content code_path listing fileContent).entry with
    | none => right; simp [register, he]
    | some e =>
      cases spawnOk with
      | false => right; simp [register, he]
      | true =>
        left
        exact ⟨rfl, Or.inl rfl, by simp [he], by simp [register, he]⟩
  | false =>
    cases getMe with
    | none => right; simp [register]
    | some u =>
      cases he : (stageStep md5hex token code_content code_path listing fileContent).entry with
      | none => right; simp [register, he]
      | some e =>
        cases spawnOk with
        | false => right; simp [register, he]
        | true =>
          left
          exact ⟨rfl, Or.inr rfl, by simp [he], by simp [register, he]⟩

theorem stageStep_dir (h : String → String) (t : String) (cc cp : Option String)
    (l : List String) (fc : String) :
    (stageStep h t cc cp l fc).dir = "hosted_apps/app_" ++ h t := by
  unfold stageStep
  dsimp only
  repeat' split
  all_goals rfl

theorem str_append_right_inj {p x y : String} (hxy : p ++ x = p ++ y) : x = y := by
  have hd := congrArg String.data hxy
  rw [String.data_append, String.data_append] at hd
  exact String.ext (List.append_cancel_left hd)

/-! ### Preservation of the registry/process consistency invariant -/

theorem supInv_init : supInv initState := by
  refine ⟨?_, ?_, ?_, ?_, ?_⟩ <;> simp [initState]

theorem dget_regRecord_process (token name u : String) (pid : Nat)
    (port : Option Nat) (site : Bool) :
    dget (regRecord token name u pid port site) "process" = some (.vProc pid) := by
  simp [regRecord, dget]

theorem supInv_register (md5hex : String → String) (getMe : Option String)
    (listing : List String) (fileContent : String) (spawnOk : Bool)
    (spawnErrMsg : String) (st : SupState) (token name : String)
    (cc cp : Option String) (site : Bool)
    (hinv : supInv st) (hfresh : dget st.bots token = none) :
    supInv (register md5hex getMe listing fileContent spawnOk spawnErrMsg st
      token name cc cp site).1 := by
  rcases register_cases md5hex getMe listing fileContent spawnOk spawnErrMsg st
      token name cc cp site with ⟨_, _, _, heq⟩ | ⟨heq, _⟩
  · rw [heq]
    obtain ⟨h1, h2, h3, h4, h5⟩ := hinv
    rw [dinsert_of_fresh _ _ _ hfresh]
    dsimp only
    refine ⟨?_, ?_, ?_, ?_, ?_⟩
    · intro kb hkb
      rcases List.mem_append.mp hkb with hkb | hkb
      · obtain ⟨pid, hpid, hrun⟩ := h1 kb hkb
        exact ⟨pid, hpid, List.mem_append_left _ hrun⟩
      · rcases List.mem_singleton.mp hkb with rfl
        refine ⟨st.nextPid, dget_regRecord_process .., ?_⟩
        exact List.mem_append_right _ (List.mem_singleton.mpr rfl)
    · intro pr hpr hpr2
      rcases List.mem_append.mp hpr with hpr | hpr
      · obtain ⟨kb, hkb, hpid⟩ := h2 pr hpr hpr2
        exact ⟨kb, List.mem_append_left _ hkb, hpid⟩
      · rcases List.mem_singleton.mp hpr with rfl
        refine ⟨_, List.mem_append_right _ (List.mem_singleton.mpr rfl), ?_⟩
        exact dget_regRecord_process ..
    · intro pr hpr
      rcases List.mem_append.mp hpr with hpr | hpr
      · exact Nat.lt_trans (h3 pr hpr) (Nat.lt_succ_self _)
      · rcases List.mem_singleton.mp hpr with rfl
        exact Nat.lt_succ_self _
    · intro kb hkb kb' hkb' pid hpid hpid'
      rcases List.mem_append.mp hkb with hkb | hkb <;>
        rcases List.mem_append.mp hkb' with hkb' | hkb'
      · exact h4 kb hkb kb' hkb' pid hpid hpid'
      · rcases List.mem_singleton.mp hkb' with rfl
        rw [dget_regRecord_process] at hpid'
        cases hpid'
        obtain ⟨pid0, hpid0, hrun0⟩ := h1 kb hkb
        rw [hpid0] at hpid
        cases hpid
        exact absurd (h3 _ hrun0) (Nat.lt_irrefl _)
      · rcases List.mem_singleton.mp hkb with rfl
        rw [dget_regRecord_process] at hpid
        cases hpid
        obtain ⟨pid0, hpid0, hrun0⟩ := h1 kb' hkb'
        rw [hpid0] at hpid'
        cases hpid'
        exact absurd (h3 _ hrun0) (Nat.lt_irrefl _)
      · rcases List.mem_singleton.mp hkb with rfl
        rcases List.mem_singleton.mp hkb' with rfl
        rfl
    · rw [List.map_append]
      rw [List.nodup_append]
      refine ⟨h5, List.nodup_singleton _, ?_⟩
      intro a ha hb
      rcases List.mem_singleton.mp hb with rfl
      exact (dget_none_iff _ _).mp hfresh ha
  · rw [heq]
    exact hinv

theorem supInv_unregister (st : SupState) (token : String) (hinv : supInv st) :
    supInv (unregister st token).1 := by
  obtain ⟨h1, h2, h3, h4, h5⟩ := hinv
  unfold unregister
  cases hg : dget st.bots token with
  | none => exact ⟨h1, h2, h3, h4, h5⟩
  | some info =>
    obtain ⟨pid, hpid, _⟩ := h1 _ (dget_mem hg)
    dsimp only at hpid ⊢
    rw [hpid]
    show supInv ⟨ddelete token st.bots, stopProc pid st.procs, st.nextPid⟩
    refine ⟨?_, ?_, ?_, ?_, ?_⟩
    · intro kb hkbd
      obtain ⟨hkb, hne⟩ := mem_ddelete.mp hkbd
      obtain ⟨pid2, hpid2, hrun2⟩ := h1 kb hkb
      refine ⟨pid2, hpid2, ?_⟩
      refine mem_stopProc_of_ne hrun2 ?_
      intro hpp
      rw [hpp] at hpid2
      exact hne (h4 kb hkb (token, info) (dget_mem hg) pid hpid2 hpid)
    · intro pr hpr hpr2
      obtain ⟨q, b⟩ := pr
      simp only at hpr2
      subst hpr2
      obtain ⟨hqp, hq⟩ := stopProc_true_mem hpr
      obtain ⟨kb, hkb, hkbpid⟩ := h2 (q, true) hq rfl
      refine ⟨kb, mem_ddelete.mpr ⟨hkb, ?_⟩, hkbpid⟩
      intro hkt
      obtain ⟨kk, kv⟩ := kb
      simp only at hkt hkbpid
      have hgv : dget st.bots kk = some kv := dget_of_mem_nodup h5 hkb
      rw [hkt, hg] at hgv
      cases hgv
      rw [hpid] at hkbpid
      cases hkbpid
      exact hqp rfl
    · intro pr hpr
      obtain ⟨pr0, hpr0, hfst⟩ := stopProc_mem_fst hpr
      rw [hfst]
      exact h3 pr0 hpr0
    · intro kb hkb kb2 hkb2 pid0 hpid0 hpid0b
      exact h4 kb (mem_ddelete.mp hkb).1 kb2 (mem_ddelete.mp hkb2).1 pid0 hpid0 hpid0b
    · exact h5.sublist (ddelete_map_fst_sublist _ _)

theorem supInv_runOps (md5hex : String → String) (st : SupState) (ops : List Op)
    (hinv : supInv st) (hfresh : freshOps md5hex st ops = true) :
    supInv (runOps md5hex st ops) := by
  induction ops generalizing st with
  | nil => exact hinv
  | cons op rest ih =>
    cases op with
    | reg g l fc s m t n cc cp site =>
      rw [freshOps, Bool.and_eq_true, Option.isNone_iff_eq_none] at hfresh
      obtain ⟨hop, hrest⟩ := hfresh
      exact ih (stepOp md5hex st (Op.reg g l fc s m t n cc cp site))
        (supInv_register md5hex g l fc s m st t n cc cp site hinv hop) hrest
    | unreg t =>
      rw [freshOps] at hfresh
      exact ih (stepOp md5hex st (Op.unreg t)) (supInv_unregister st t hinv) hfresh

/-- The scan `findEntryZip` picks, in directory-enumeration order, the first file
whose name is one of the three recognized entry names. -/
theorem findEntryZip_eq_find (dir : String) (listing : List String) :
    findEntryZip dir listing = (listing.find? recognizedEntry).map (entryForFile dir) := by
  induction listing with
  | nil => rfl
  | cons f rest ih =>
    by_cases h1 : f = "main.py"
    · subst h1; simp [findEntryZip, recognizedEntry, entryForFile]
    · by_cases h2 : f = "index.js"
      · subst h2; simp [findEntryZip, recognizedEntry, entryForFile]
      · by_cases h3 : f = "package.json"
        · subst h3; simp [findEntryZip, recognizedEntry, entryForFile]
        · simp [findEntryZip, recognizedEntry, h1, h2, h3, ih]

/-! ### Claim theorems -/

/-- C1: the claim that allocated ports of live Site records are pairwise
distinct in every reachable state FAILS on the code.  After the
operation sequence register(a, Site), register(b, Site), unregister(a),
register(c, Site), the live site records `b` and `c` both hold
`allocatedPort = 10002`, because `register` computes
`10000 + len(self._bots) + 1` (index.py:684) without re-checking ports of
still-live records. -/
theorem c1_port_collision :
    (dget c1Final.bots "b").bind (fun i => dget i "type") = some (.vStr "site") ∧
    (dget c1Final.bots "c").bind (fun i => dget i "type") = some (.vStr "site") ∧
    (dget c1Final.bots "b").bind (fun i => dget i "port") = some (.vNat 10002) ∧
    (dget c1Final.bots "c").bind (fun i => dget i "port") = some (.vNat 10002) := by
  decide

/-- C2: for a registered identity, `POST /webhook/{identity}` does NOT
behave as claimed: because the record `register` stores has no
`total_updates` key, `process_update` raises `KeyError` before any
counter increment or dispatcher feed, and the handler answers 200 with a
failure body — no effect on the workload is performed.  The
unknown-identity half of the claim (404, no process interaction) holds. -/
theorem c2_webhook_divergence :
    (dget c2State.bots "123:abc").isSome = true ∧
    hosted_webhook c2State "123:abc" true =
      (c2State, [], ⟨200, "\x7b\"ok\": false, \"error\": \"'total_updates'\"\x7d"⟩) ∧
    (hosted_webhook c2State "zzz" true).2.2.status = 404 ∧
    (hosted_webhook c2State "zzz" true).2.1 = [] := by
  decide

/-- C3: `/site/{identity}/{path}` routing.  When no record matches the
path segment (by stored username or raw token), or the matched record has
no truthy allocated port, the router answers 404 "Site Not Found"; when a
matching record has port `p` and the downstream round trip to
`localhost:p` completes with status 201 and body "ok", the router's
response is exactly status 201 and body "ok" (downstream status and body
relayed verbatim, index.py:1625). -/
theorem c3_site_proxy_relay :
    (∀ st tid path qs ds, findTarget st.bots tid = none →
        site_proxy st tid path qs ds = ⟨404, "Site Not Found"⟩) ∧
    (∀ st tid path qs ds b, findTarget st.bots tid = some b →
        pyTruthyVal (dget b "port") = false →
        site_proxy st tid path qs ds = ⟨404, "Site Not Found"⟩) ∧
    (∀ st tid path qs ds b p, findTarget st.bots tid = some b →
        dget b "port" = some (.vNat p) → (p == 0) = false →
        ds p (proxyUrl p path qs) = some ⟨201, "ok"⟩ →
        site_proxy st tid path qs ds = ⟨201, "ok"⟩) := by
  refine ⟨?_, ?_, ?_⟩
  · intro st tid path qs ds h
    simp [site_proxy, h]
  · intro st tid path qs ds b h hport
    simp [site_proxy, h, hport]
  · intro st tid path qs ds b p h hport hp hds
    simp [site_proxy, h, hport, pyTruthyVal, hp, hds]

/-- Witness for C3 on a live site `"site1"` with port 10001. -/
theorem c3_site_proxy_relay_witness :
    site_proxy c3State "nope" "p" "" (fun _ _ => some ⟨201, "ok"⟩)
      = ⟨404, "Site Not Found"⟩ ∧
    site_proxy c3State "site1" "ping" "" (fun _ _ => some ⟨201, "ok"⟩)
      = ⟨201, "ok"⟩ := by
  constructor
  · exact c3_site_proxy_relay.1 c3State "nope" "p" "" _ (by decide)
  · exact c3_site_proxy_relay.2.2 c3State "site1" "ping" ""
      (fun _ _ => some ⟨201, "ok"⟩)
      (regRecord "site1" "n" "website" 0 (some 10001) true) 10001
      (by decide) (by decide) (by decide) rfl

/-- C4: `unregister` returns `False` and leaves the state untouched for
an identity that was never registered; for a registered identity it
returns `True` and the registry entry is absent immediately after — even
when the record's child process has already exited (the
`ProcessLookupError` branch of index.py:747-748 treats it as success). -/
theorem c4_unregister_contract :
    (∀ st t, dget st.bots t = none → unregister st t = (st, false)) ∧
    (∀ st t info, dget st.bots t = some info →
        (unregister st t).2 = true ∧ dget (unregister st t).1.bots t = none) ∧
    (∀ st t info pid, dget st.bots t = some info →
        dget info "process" = some (.vProc pid) → (pid, false) ∈ st.procs →
        (unregister st t).2 = true ∧ dget (unregister st t).1.bots t = none) := by
  refine ⟨?_, ?_, ?_⟩
  · intro st t h
    simp [unregister, h]
  · intro st t info h
    constructor
    · simp [unregister, h]
    · simp [unregister, h, dget_ddelete_self]
  · intro st t info pid h _ _
    constructor
    · simp [unregister, h]
    · simp [unregister, h, dget_ddelete_self]

/-- Witness for C4: an unknown identity, a live identity, and an identity
whose child already exited. -/
theorem c4_unregister_contract_witness :
    unregister initState "ghost" = (initState, false) ∧
    ((unregister c4State "tok").2 = true ∧
      dget (unregister c4State "tok").1.bots "tok" = none) ∧
    ((unregister c4DeadState "tok").2 = true ∧
      dget (unregister c4DeadState "tok").1.bots "tok" = none) := by
  refine ⟨?_, ?_, ?_⟩
  · exact c4_unregister_contract.1 initState "ghost" (by decide)
  · exact c4_unregister_contract.2.1 c4State "tok"
      (regRecord "tok" "n" "u" 0 none false) (by decide)
  · exact c4_unregister_contract.2.2 c4DeadState "tok"
      (regRecord "tok" "n" "u" 0 none false) 0 (by decide) (by decide) (by decide)

/-- C5: every `register` call that fails — invalid token (`get_me`
rejected a non-site identity), no recognized entry point after staging,
or a spawn failure — returns a failure outcome and leaves the registry
state exactly as it was: no record is created. -/
theorem c5_failed_register_unchanged :
    ∀ (h : String → String) g l fc sOk sm st t n cc cp site,
      ((site = false ∧ g = none) ∨
       (stageStep h t cc cp l fc).entry = none ∨ sOk = false) →
      (register h g l fc sOk sm st t n cc cp site).1 = st ∧
      (register h g l fc sOk sm st t n cc cp site).2.1 = false := by
  intro h g l fc sOk sm st t n cc cp site hbad
  rcases register_cases h g l fc sOk sm st t n cc cp site with
    ⟨hs, hg, he, _⟩ | ⟨h1, h2⟩
  · exfalso
    rcases hbad with ⟨hsite, hgn⟩ | hent | hsok
    · subst hsite; subst hgn
      rcases hg with hg | hg <;> cases hg
    · rw [hent] at he; cases he
    · rw [hsok] at hs; cases hs
  · exact ⟨h1, h2⟩

/-- Witness for C5: registering a messaging bot whose token validation
failed leaves the empty registry empty and reports failure. -/
theorem c5_failed_register_unchanged_witness :
    (register (fun s => s) none [] "" true "e" initState "1:t" "n"
        (some "x") none false).1 = initState ∧
    (register (fun s => s) none [] "" true "e" initState "1:t" "n"
        (some "x") none false).2.1 = false :=
  c5_failed_register_unchanged (fun s => s) none [] "" true "e" initState "1:t" "n"
    (some "x") none false (Or.inl ⟨rfl, rfl⟩)

/-- C6 counterexample: calling `register` twice for the same identity
(no unregister in between) spawns a second child and overwrites the
record, leaving the first child (pid 0) running but referenced by no
registry record — the claimed invariant fails, because `register` never
checks whether the identity already has a live record. -/
theorem c6_redeploy_orphan :
    (0, true) ∈ c6Final.procs ∧
    ∀ kb ∈ c6Final.bots, dget kb.2 "process" ≠ some (.vProc 0) := by
  decide

/-- C6 (amended): provided `register` is only ever invoked for an
identity with no live record, the biconditional holds in every reachable
state: every registry record's process handle denotes a launched child
not yet terminated by the supervisor, and every such child is some
record's process. -/
theorem c6_registry_tracks_live_children :
    ∀ (h : String → String) (ops : List Op), freshOps h initState ops = true →
      (∀ kb ∈ (runOps h initState ops).bots, ∃ pid,
          dget kb.2 "process" = some (.vProc pid) ∧
          (pid, true) ∈ (runOps h initState ops).procs) ∧
      (∀ pr ∈ (runOps h initState ops).procs, pr.2 = true →
          ∃ kb ∈ (runOps h initState ops).bots,
            dget kb.2 "process" = some (.vProc pr.1)) := by
  intro h ops hfresh
  obtain ⟨h1, h2, _, _, _⟩ := supInv_runOps h initState ops supInv_init hfresh
  exact ⟨h1, h2⟩

/-- Witness for the amended C6 on a one-registration trace. -/
theorem c6_registry_tracks_live_children_witness :
    (∀ kb ∈ (runOps (fun s => s) initState [siteRegOp "a"]).bots, ∃ pid,
        dget kb.2 "process" = some (.vProc pid) ∧
        (pid, true) ∈ (runOps (fun s => s) initState [siteRegOp "a"]).procs) ∧
    (∀ pr ∈ (runOps (fun s => s) initState [siteRegOp "a"]).procs, pr.2 = true →
        ∃ kb ∈ (runOps (fun s => s) initState [siteRegOp "a"]).bots,
          dget kb.2 "process" = some (.vProc pr.1)) :=
  c6_registry_tracks_live_children (fun s => s) [siteRegOp "a"] (by decide)

/-- C7 counterexample: with enumeration order `[index.js, main.py]` the
code selects `index.js` although `main.py` is present, so the scan does
NOT honour the claimed fixed priority independent of enumeration order
(the spec-worded resolver `findEntryPrioritySpec` disagrees with the
code's `findEntryZip` on this listing). -/
theorem c7_scan_order_counterexample :
    "main.py" ∈ ["index.js", "main.py"] ∧
    findEntryZip "d" ["index.js", "main.py"] = some ("node", "d/index.js") ∧
    findEntryZip "d" ["index.js", "main.py"] ≠
      findEntryPrioritySpec "d" ["index.js", "main.py"] := by
  decide

/-- C7 (amended): the zip scan takes the first file in directory
enumeration order whose name is one of the recognized set
(main.py, index.js, package.json); when no listed file is recognized,
`register` fails with "Could not find entry point". -/
theorem c7_first_recognized_wins :
    (∀ dir listing, findEntryZip dir listing =
        (listing.find? recognizedEntry).map (entryForFile dir)) ∧
    (∀ (h : String → String) listing fc sm st t n cp,
        listing.find? recognizedEntry = none →
        pyTruthyStr cp = true → pyEndsWith (cp.getD "") ".zip" = true →
        register h none listing fc true sm st t n none cp true =
          (st, false, "Could not find entry point")) := by
  constructor
  · exact findEntryZip_eq_find
  · intro h listing fc sm st t n cp hnone hcp hzip
    have hz : findEntryZip ("hosted_apps/app_" ++ h t) listing = none := by
      rw [findEntryZip_eq_find, hnone]; rfl
    have hent : (stageStep h t none cp listing fc).entry = none := by
      simp only [stageStep, pyTruthyStr] at hcp ⊢
      simp [hcp, hzip, hz]
    simp [register, hent]

/-- Witness for the amended C7. -/
theorem c7_first_recognized_wins_witness :
    findEntryZip "d" ["a.txt", "package.json"] =
      ((["a.txt", "package.json"]).find? recognizedEntry).map (entryForFile "d") ∧
    register (fun s => s) none ["readme.md"] "" true "e" initState "s" "n" none
        (some "a.zip") true = (initState, false, "Could not find entry point") := by
  constructor
  · exact c7_first_recognized_wins.1 "d" ["a.txt", "package.json"]
  · exact c7_first_recognized_wins.2 (fun s => s) ["readme.md"] "" "e" initState
      "s" "n" (some "a.zip") (by decide) (by decide) (by decide)

/-- C8 counterexample: with inline text `""` and a file path both
supplied, the inline text does NOT win — Python truthiness treats the
empty string as absent, so the file at `code_path` is copied and its
content becomes the entry file's content. -/
theorem c8_empty_inline_loses :
    (stageStep (fun s => s) "t" (some "") (some "f.py") [] "FILEDATA").entryContent
      = some "FILEDATA" ∧
    (stageStep (fun s => s) "t" (some "") (some "f.py") [] "FILEDATA").entryContent
      ≠ some "" := by
  decide

/-- C8 (amended): NON-EMPTY inline source text wins over a file path and
is written character-for-character as the entry file's content; when
neither a non-empty inline text nor a non-empty file path is supplied,
staging falls back to the built-in default workload code. -/
theorem c8_payload_precedence :
    (∀ (h : String → String) t c cp l fc, c ≠ "" →
        (stageStep h t (some c) cp l fc).entryContent = some c) ∧
    (∀ (h : String → String) t cc cp l fc,
        pyTruthyStr cc = false → pyTruthyStr cp = false →
        (stageStep h t cc cp l fc).entryContent = some DEFAULT_SERVICE_CODE) := by
  constructor
  · intro h t c cp l fc hc
    have hcT : pyTruthyStr (some c) = true := by simp [pyTruthyStr, hc]
    simp [stageStep, hcT]
  · intro h t cc cp l fc h1 h2
    have hD : pyTruthyStr (some DEFAULT_SERVICE_CODE) = true := by decide
    simp [stageStep, h1, h2, hD]

/-- Witness for the amended C8. -/
theorem c8_payload_precedence_witness :
    (stageStep (fun s => s) "t" (some "CODE") (some "f.py") [] "FILE").entryContent
      = some "CODE" ∧
    (stageStep (fun s => s) "t" none none [] "FILE").entryContent
      = some DEFAULT_SERVICE_CODE := by
  constructor
  · exact c8_payload_precedence.1 (fun s => s) "t" "CODE" (some "f.py") [] "FILE"
      (by decide)
  · exact c8_payload_precedence.2 (fun s => s) "t" none none [] "FILE"
      (by decide) (by decide)

/-- C9: the working directory chosen at staging is a function of the
identity's hash alone — the same identity with any payloads gets the same
directory, and identities with distinct hashes get distinct directories. -/
theorem c9_workdir_identity_hash :
    (∀ (h : String → String) t cc cp l fc cc2 cp2 l2 fc2,
        (stageStep h t cc cp l fc).dir = (stageStep h t cc2 cp2 l2 fc2).dir) ∧
    (∀ (h : String → String) t1 t2 cc cp l fc cc2 cp2 l2 fc2, h t1 ≠ h t2 →
        (stageStep h t1 cc cp l fc).dir ≠ (stageStep h t2 cc2 cp2 l2 fc2).dir) := by
  constructor
  · intro h t cc cp l fc cc2 cp2 l2 fc2
    rw [stageStep_dir, stageStep_dir]
  · intro h t1 t2 cc cp l fc cc2 cp2 l2 fc2 hne
    rw [stageStep_dir, stageStep_dir]
    intro heq
    exact hne (str_append_right_inj heq)

/-- Witness for C9. -/
theorem c9_workdir_identity_hash_witness :
    (stageStep (fun s => s) "botA" (some "x") none [] "").dir
      = (stageStep (fun s => s) "botA" none (some "f.py") ["z"] "Y").dir ∧
    (stageStep (fun s => s) "botA" (some "x") none [] "").dir
      ≠ (stageStep (fun s => s) "botB" (some "x") none [] "").dir := by
  constructor
  · exact c9_workdir_identity_hash.1 (fun s => s) "botA" (some "x") none [] ""
      none (some "f.py") ["z"] "Y"
  · exact c9_workdir_identity_hash.2 (fun s => s) "botA" "botB" (some "x") none [] ""
      (some "x") none [] "" (by decide)

/-- C10: the code-upload flow classifies an identity as kind Site exactly
when it contains no ':' — a successfully registered record's `type` field
is "site" iff the identity has no colon — and an identity with a colon
whose `get_me` validation fails is rejected with "Invalid Token" and no
state change. -/
theorem c10_colon_classifies_kind :
    (∀ (h : String → String) g l fc sOk sm st t cc cp info,
        (process_bot_code h g l fc sOk sm st t cc cp).2.1 = true →
        dget (process_bot_code h g l fc sOk sm st t cc cp).1.bots t = some info →
        (dget info "type" = some (.vStr "site") ↔ pyContainsChar t ':' = false)) ∧
    (∀ (h : String → String) g l fc sOk sm st t cc cp,
        pyContainsChar t ':' = true → g = none →
        process_bot_code h g l fc sOk sm st t cc cp = (st, false, "Invalid Token")) := by
  constructor
  · intro h g l fc sOk sm st t cc cp info hok hinfo
    unfold process_bot_code at hok hinfo
    rcases register_cases h g l fc sOk sm st t "UserApp" cc cp (computed_is_site t) with
      ⟨_, _, _, heq⟩ | ⟨_, hfail⟩
    · rw [heq] at hinfo
      dsimp only at hinfo
      rw [dget_dinsert_self] at hinfo
      cases hinfo
      cases hcol : pyContainsChar t ':' with
      | true => simp [regRecord, dget, computed_is_site, hcol]
      | false => simp [regRecord, dget, computed_is_site, hcol]
    · rw [hfail] at hok; cases hok
  · intro h g l fc sOk sm st t cc cp hcol hg
    subst hg
    unfold process_bot_code
    have hcs : computed_is_site t = false := by simp [computed_is_site, hcol]
    simp [register, hcs]

/-- Witness for C10: a colon-free identity registers as a site; a
colon-bearing identity with failed validation is rejected unchanged. -/
theorem c10_colon_classifies_kind_witness :
    (dget (regRecord "mysite" "UserApp" "website" 0 (some 10001) true) "type"
        = some (.vStr "site") ↔ pyContainsChar "mysite" ':' = false) ∧
    process_bot_code (fun s => s) none [] "" true "e" initState "12:ab"
        (some "x") none = (initState, false, "Invalid Token") := by
  constructor
  · exact c10_colon_classifies_kind.1 (fun s => s) none [] "" true "e" initState
      "mysite" (some "x") none
      (regRecord "mysite" "UserApp" "website" 0 (some 10001) true)
      (by decide) (by decide)
  · exact c10_colon_classifies_kind.2 (fun s => s) none [] "" true "e" initState
      "12:ab" (some "x") none (by decide) rfl
